import Mathlib

set_option linter.unusedVariables false

/-!
Shallow embedding of `http/codegen/client_types.go` (package `codegen`):
the HTTP client-types code generator.  `ClientTypeFiles` produces one
generated file per HTTP service; `clientType` plans the ordered list of
sections of one service's `types.go` artifact.

The service data consumed by `clientType` (`rdata = HTTPServices.Get(svc.Name())`,
the `TypeData`/`InitData`/`ExpandedTypeData` descriptors, `codegen.Gendir`,
`codegen.SnakeCase`) is built by code outside this file; those parts are
modelled from the spec where noted.  `HTTPServices.Get` derives `rdata`
from `svc` itself and `rdata.Endpoint(name)` resolves each element of
`svc.HTTPEndpoints` in order, so the service expression and its service
data are merged into a single `ServiceData` record whose `endpoints`
list is iterated wherever the source iterates either `svc.HTTPEndpoints`
(resolving each name through `rdata.Endpoint`) or `rdata.Endpoints`.

Go loops of the shape `for x := range xs { if cond(x) { ys = append(ys, f(x)) } }`
are embedded as `xs.filterMap` / `xs.flatMap` appends, which denote the
same final lists.
-/

namespace GoaHTTP

/-- Constructor descriptor (`InitData` of the service data, fields used by the
templates of `client_types.go`: `Name`, `ReturnTypeRef`, `ClientCode`). -/
structure InitData where
  name : String
  returnTypeRef : String
  clientCode : String
deriving DecidableEq, Repr

/-- Body type descriptor (`TypeData` of the service data, fields read in
`client_types.go`: `Name`, `Def`, `Init`, `ValidateDef`). -/
structure TypeData where
  name : String
  def_ : String
  init : Option InitData
  validateDef : String
deriving DecidableEq, Repr

/-- One declared view of an expanded type (fields read by the
`expandedTypeConvertT` template: `View`, `Ref`, `ToResult`, `ToResultCode`). -/
structure ViewData where
  view : String
  ref : String
  toResult : String
  toResultCode : String
deriving DecidableEq, Repr

/-- Expanded type descriptor (fields read by the templates of
`client_types.go`: `Name`, `VarName`, `Ref`, `ResultName`, `ResultRef`,
`Validate`, `Views`). -/
structure ExpandedTypeData where
  name : String
  varName : String
  ref : String
  resultName : String
  resultRef : String
  validate : String
  views : List ViewData
deriving DecidableEq, Repr

/-- A shared transform helper function (`codegen.TransformFunctionData`);
`client_types.go` passes it through to the `transform-helper` section
without inspecting it. -/
structure TransformFunctionData where
  name : String
  code : String
deriving DecidableEq, Repr

/-- One response of an endpoint (`ResponseData`, fields read in
`client_types.go`: `ClientBody`, `ResultInit`). -/
structure ResponseData where
  clientBody : Option TypeData
  resultInit : Option InitData
deriving DecidableEq, Repr

/-- One error of an endpoint (`ErrorData`); `client_types.go` reads
`herr.Response.ClientBody` and `herr.Response.ResultInit`. -/
structure ErrorData where
  response : ResponseData
deriving DecidableEq, Repr

/-- Per-endpoint data: the payload's request client body
(`adata.Payload.Request.ClientBody`), the result responses
(`adata.Result.Responses`) and the errors (`adata.Errors`). -/
structure EndpointData where
  name : String
  payloadClientBody : Option TypeData
  responses : List ResponseData
  errors : List ErrorData
deriving DecidableEq, Repr

/-- Merged `svc : *httpdesign.ServiceExpr` / `rdata = HTTPServices.Get(svc.Name())`
record: `name` is `svc.Name()`; `endpoints` is `svc.HTTPEndpoints` with each
name resolved through `rdata.Endpoint` (equivalently `rdata.Endpoints`);
`clientBodyAttributeTypes` is `rdata.ClientBodyAttributeTypes`;
`expandedTypes` is `rdata.ExpandedTypes`; `helpers` is `rdata.Service.Helpers`. -/
structure ServiceData where
  name : String
  endpoints : List EndpointData
  clientBodyAttributeTypes : List TypeData
  expandedTypes : List ExpandedTypeData
  helpers : List TransformFunctionData
deriving DecidableEq, Repr

/-- The HTTP design root (`*httpdesign.RootExpr`); `ClientTypeFiles` iterates
`root.HTTPServices`. -/
structure RootExpr where
  httpServices : List ServiceData
deriving DecidableEq, Repr

/-- A planned section of the artifact: the (Name, Source, Data) triple of a
`codegen.SectionTemplate` as built in `client_types.go`.  Each constructor
pairs one section name with its template source and payload type exactly as
the source does. -/
inductive SectionTemplate where
  | header (serviceName genpkg : String)
  | clientRequestBody (data : TypeData)
  | clientResponseBody (data : TypeData)
  | clientErrorBody (data : TypeData)
  | clientBodyAttributes (data : TypeData)
  | expandedType (data : ExpandedTypeData)
  | clientBodyInit (data : InitData)
  | clientResultInit (data : InitData)
  | clientErrorResultInit (data : InitData)
  | expandedTypeConvert (data : ExpandedTypeData)
  | transformHelper (data : TransformFunctionData)
  | clientValidate (data : TypeData)
  | clientValidateExpanded (data : ExpandedTypeData)
deriving DecidableEq, Repr

/-- A generated file (`codegen.File`): logical path plus ordered sections. -/
structure File where
  path : String
  sectionTemplates : List SectionTemplate
deriving DecidableEq, Repr

/-- Modelled from the spec: `codegen.Gendir`, the generation root — the
`<root>` component of the artifact path.  Its definition lives outside this
file. -/
def Gendir : String := "gen"

/-- Modelled from the spec: `codegen.SnakeCase`, which produces the
snake-cased service name (the service-slug path component).  Its definition
lives outside this file; lower-cases letters, separating an upper-case letter
from a preceding lower-case run and mapping spaces and dashes to
underscores. -/
def SnakeCase (s : String) : String :=
  (s.toList.foldl
    (fun acc c =>
      if c.isUpper then
        ((acc.1 ++ (if acc.2 then "_" else "")).push c.toLower, false)
      else if c = ' ' ∨ c = '-' then
        (acc.1.push '_', false)
      else
        (acc.1.push c, true))
    ("", false)).1

/-- Modelled from the spec: `path/filepath.Join`, which on clean nonempty
components joins them with the path separator. -/
def filepathJoin : List String → String
  | [] => ""
  | [x] => x
  | x :: xs => x ++ "/" ++ filepathJoin xs

/-- Lines 68-85 of `client_types.go` (request body types loop): the request
client bodies that get a `client-request-body` type-declaration section —
present payload client bodies whose `Def` is nonempty. -/
def requestBodyDatas (svc : ServiceData) : List TypeData :=
  svc.endpoints.filterMap fun a =>
    match a.payloadClientBody with
    | some data => if data.def_ ≠ "" then some data else none
    | none => none

/-- Lines 70-77: the `client-request-body` type-declaration sections. -/
def requestBodySections (svc : ServiceData) : List SectionTemplate :=
  (requestBodyDatas svc).map SectionTemplate.clientRequestBody

/-- Lines 78-80: `initData` — the payload client bodies' constructors,
collected during the request-body loop regardless of `Def`. -/
def initDatas (svc : ServiceData) : List InitData :=
  svc.endpoints.filterMap fun a =>
    match a.payloadClientBody with
    | some data => data.init
    | none => none

/-- Lines 81-83: the request client bodies flagged for validation
(`ValidateDef` nonempty), collected regardless of `Def`. -/
def requestBodyValidatedDatas (svc : ServiceData) : List TypeData :=
  svc.endpoints.filterMap fun a =>
    match a.payloadClientBody with
    | some data => if data.validateDef ≠ "" then some data else none
    | none => none

/-- Lines 87-104 (response body types loop): per endpoint, per response in
schema order, the response client bodies with nonempty `Def`. -/
def responseBodyDatas (svc : ServiceData) : List TypeData :=
  svc.endpoints.flatMap fun a =>
    a.responses.filterMap fun resp =>
      match resp.clientBody with
      | some data => if data.def_ ≠ "" then some data else none
      | none => none

/-- Lines 91-98: the `client-response-body` type-declaration sections. -/
def responseBodySections (svc : ServiceData) : List SectionTemplate :=
  (responseBodyDatas svc).map SectionTemplate.clientResponseBody

/-- Lines 99-101: the response client bodies flagged for validation. -/
def responseBodyValidatedDatas (svc : ServiceData) : List TypeData :=
  svc.endpoints.flatMap fun a =>
    a.responses.filterMap fun resp =>
      match resp.clientBody with
      | some data => if data.validateDef ≠ "" then some data else none
      | none => none

/-- Lines 106-123 (error body types loop): per endpoint, per error in schema
order, the error response client bodies with nonempty `Def`. -/
def errorBodyDatas (svc : ServiceData) : List TypeData :=
  svc.endpoints.flatMap fun a =>
    a.errors.filterMap fun herr =>
      match herr.response.clientBody with
      | some data => if data.def_ ≠ "" then some data else none
      | none => none

/-- Lines 110-117: the `client-error-body` type-declaration sections. -/
def errorBodySections (svc : ServiceData) : List SectionTemplate :=
  (errorBodyDatas svc).map SectionTemplate.clientErrorBody

/-- Lines 118-120: the error client bodies flagged for validation. -/
def errorBodyValidatedDatas (svc : ServiceData) : List TypeData :=
  svc.endpoints.flatMap fun a =>
    a.errors.filterMap fun herr =>
      match herr.response.clientBody with
      | some data => if data.validateDef ≠ "" then some data else none
      | none => none

/-- Lines 125-138 (body attribute types loop): the shared body-attribute
types with nonempty `Def`. -/
def bodyAttributeDatas (svc : ServiceData) : List TypeData :=
  svc.clientBodyAttributeTypes.filterMap fun data =>
    if data.def_ ≠ "" then some data else none

/-- Lines 126-133: the `client-body-attributes` type-declaration sections. -/
def bodyAttributeSections (svc : ServiceData) : List SectionTemplate :=
  (bodyAttributeDatas svc).map SectionTemplate.clientBodyAttributes

/-- Lines 135-137: the body-attribute types flagged for validation. -/
def bodyAttributeValidatedDatas (svc : ServiceData) : List TypeData :=
  svc.clientBodyAttributeTypes.filterMap fun data =>
    if data.validateDef ≠ "" then some data else none

/-- Lines 140-147 (expanded types loop): one `expanded-type` declaration
section per expanded type, unconditionally. -/
def expandedTypeSections (svc : ServiceData) : List SectionTemplate :=
  svc.expandedTypes.map SectionTemplate.expandedType

/-- Lines 149-156 (body constructors loop): one `client-body-init` section
per collected `initData` entry, in collection order. -/
def bodyInitSections (svc : ServiceData) : List SectionTemplate :=
  (initDatas svc).map SectionTemplate.clientBodyInit

/-- Lines 158-180 (result constructors loop): per endpoint, the
`client-result-init` sections of its responses (schema order) followed by the
`client-error-result-init` sections of its errors (schema order), for the
responses and errors that carry a `ResultInit`. -/
def resultInitSections (svc : ServiceData) : List SectionTemplate :=
  svc.endpoints.flatMap fun adata =>
    (adata.responses.filterMap fun resp =>
      resp.resultInit.map SectionTemplate.clientResultInit)
    ++ (adata.errors.filterMap fun herr =>
      herr.response.resultInit.map SectionTemplate.clientErrorResultInit)

/-- Lines 182-188 (expanded type conversions loop): one
`expanded-type-convert` section per expanded type. -/
def expandedTypeConvertSections (svc : ServiceData) : List SectionTemplate :=
  svc.expandedTypes.map SectionTemplate.expandedTypeConvert

/-- Lines 189-195 (transform helpers loop): one `transform-helper` section
per service helper. -/
def transformHelperSections (svc : ServiceData) : List SectionTemplate :=
  svc.helpers.map SectionTemplate.transformHelper

/-- The full `validatedTypes` slice as accumulated across the four
type-declaration loops (lines 81-83, 99-101, 118-120, 135-137), i.e. the
flagged body descriptors in type-declaration order. -/
def validatedTypes (svc : ServiceData) : List TypeData :=
  requestBodyValidatedDatas svc ++ responseBodyValidatedDatas svc
    ++ errorBodyValidatedDatas svc ++ bodyAttributeValidatedDatas svc

/-- Lines 197-204 (validate methods loop): one `client-validate` section per
flagged body descriptor, in collection order. -/
def clientValidateSections (svc : ServiceData) : List SectionTemplate :=
  (validatedTypes svc).map SectionTemplate.clientValidate

/-- Modelled from the spec: `rdata.Service.ExpandedTypes`, read at lines
205-211.  It is built by the service-data builder outside this file; per the
spec it holds exactly the expanded types requiring validation, i.e. those
carrying at least one constraint (a nonempty validation fragment). -/
def serviceExpandedTypes (svc : ServiceData) : List ExpandedTypeData :=
  svc.expandedTypes.filter fun t => t.validate ≠ ""

/-- Lines 205-211: one `client-validate-expanded` section per element of
`rdata.Service.ExpandedTypes`. -/
def expandedValidateSections (svc : ServiceData) : List SectionTemplate :=
  (serviceExpandedTypes svc).map SectionTemplate.clientValidateExpanded

/-- Lines 45-214: `clientType` — plans one service's client `types.go` file.
`seen` is received exactly as in the source: the source's body never reads or
writes it (despite its doc comment), so no branch of this definition consults
it either.  The `sections` slice starts with the header and each source loop
appends its sections in source order. -/
def clientType (genpkg : String) (svc : ServiceData) (seen : List String) : File :=
  let path := filepathJoin [Gendir, "http", SnakeCase svc.name, "client", "types.go"]
  let header := SectionTemplate.header svc.name genpkg
  let sections := [header]
  let sections := sections ++ requestBodySections svc
  let sections := sections ++ responseBodySections svc
  let sections := sections ++ errorBodySections svc
  let sections := sections ++ bodyAttributeSections svc
  let sections := sections ++ expandedTypeSections svc
  let sections := sections ++ bodyInitSections svc
  let sections := sections ++ resultInitSections svc
  let sections := sections ++ expandedTypeConvertSections svc
  let sections := sections ++ transformHelperSections svc
  let sections := sections ++ clientValidateSections svc
  let sections := sections ++ expandedValidateSections svc
  { path := path, sectionTemplates := sections }

/-- Lines 11-18: `ClientTypeFiles` — one client types file per HTTP service,
sharing one `seen` registry created empty; `clientType` never updates it, so
every call receives the empty registry. -/
def ClientTypeFiles (genpkg : String) (root : RootExpr) : List File :=
  let seen : List String := []
  root.httpServices.map fun svc => clientType genpkg svc seen

/-- The representation of a field value in the generated code: held directly
(`value`) or behind a pointer (`optional`). -/
inductive FieldRep where
  | value
  | optional
deriving DecidableEq, Repr

/-- Whether a field holds a primitive type or an aggregate (slice, map or
object). -/
inductive FieldKind where
  | primitive
  | aggregate
deriving DecidableEq, Repr

/-- The context a field appears in, per the pointer rules documented at lines
24-43 of `client_types.go`: payload struct field, request/response body
field, request header/path/query parameter, response header, or result
struct field. -/
inductive FieldContext where
  | payload
  | body
  | param
  | headerRequest
  | headerResponse
  | result
deriving DecidableEq, Repr

/-- Modelled from the spec: the PointerPolicyResolver.  Its implementation
lives outside this file; lines 24-43 of `client_types.go` document the same
rules.  Aggregates (slices, maps, objects) always use pointers; for
primitives: a payload field is optional iff not required and without
default; request and response body fields are always optional; request
header/path/query parameters are optional iff not required; a result field
is optional iff not required or with a default; a response header is
optional iff not required and without default. -/
def pointerPolicy (required hasDefault : Bool) (kind : FieldKind)
    (ctx : FieldContext) : FieldRep :=
  match kind with
  | FieldKind.aggregate => FieldRep.optional
  | FieldKind.primitive =>
    match ctx with
    | FieldContext.payload =>
      if !required && !hasDefault then FieldRep.optional else FieldRep.value
    | FieldContext.body => FieldRep.optional
    | FieldContext.param =>
      if !required then FieldRep.optional else FieldRep.value
    | FieldContext.headerRequest =>
      if !required then FieldRep.optional else FieldRep.value
    | FieldContext.headerResponse =>
      if !required && !hasDefault then FieldRep.optional else FieldRep.value
    | FieldContext.result =>
      if !required || hasDefault then FieldRep.optional else FieldRep.value

/-- Whether a section is a type-declaration section (template `typeDeclT`,
section names `client-request-body`, `client-response-body`,
`client-error-body`, `client-body-attributes`, `expanded-type`). -/
def isTypeDeclSection : SectionTemplate → Bool
  | SectionTemplate.clientRequestBody _ => true
  | SectionTemplate.clientResponseBody _ => true
  | SectionTemplate.clientErrorBody _ => true
  | SectionTemplate.clientBodyAttributes _ => true
  | SectionTemplate.expandedType _ => true
  | _ => false

/-- Whether a section consumes declared types: a body or result constructor,
a view-conversion section, a transform helper, or a validator. -/
def isConsumerSection : SectionTemplate → Bool
  | SectionTemplate.clientBodyInit _ => true
  | SectionTemplate.clientResultInit _ => true
  | SectionTemplate.clientErrorResultInit _ => true
  | SectionTemplate.expandedTypeConvert _ => true
  | SectionTemplate.transformHelper _ => true
  | SectionTemplate.clientValidate _ => true
  | SectionTemplate.clientValidateExpanded _ => true
  | _ => false

/-- Whether a section is a validator section (`client-validate` or
`client-validate-expanded`). -/
def isValidatorSection : SectionTemplate → Bool
  | SectionTemplate.clientValidate _ => true
  | SectionTemplate.clientValidateExpanded _ => true
  | _ => false

/-- Whether a section is a view-conversion section
(`expanded-type-convert`). -/
def isConvertSection : SectionTemplate → Bool
  | SectionTemplate.expandedTypeConvert _ => true
  | _ => false

/-- The type name declared by a type-declaration section, if any. -/
def declTypeName : SectionTemplate → Option String
  | SectionTemplate.clientRequestBody d => some d.name
  | SectionTemplate.clientResponseBody d => some d.name
  | SectionTemplate.clientErrorBody d => some d.name
  | SectionTemplate.clientBodyAttributes d => some d.name
  | SectionTemplate.expandedType t => some t.name
  | _ => none

/-- One conversion function as rendered by the `expandedTypeConvertT`
template (lines 264-272): receiver reference, function name, return type
reference, and body fragment. -/
structure ConvFunc where
  recvRef : String
  name : String
  retTypeRef : String
  body : String
deriving DecidableEq, Repr

/-- Lines 264-272: the denotation of the `expandedTypeConvertT` template.
It ranges over `.Views` and emits, per view in declared order, one method
named `.ToResult` on receiver `.Ref` whose return type is the type-level
`$.ResultRef` and whose body is `.ToResultCode`. -/
def renderExpandedTypeConvert (t : ExpandedTypeData) : List ConvFunc :=
  t.views.map fun v =>
    { recvRef := v.ref, name := v.toResult, retTypeRef := t.resultRef,
      body := v.toResultCode }

/-! ### Specification-side phase lists (§4.4 of the spec)

The following definitions restate the SectionPlanner phase table in the
spec's own per-item terms (one possibly-empty section list per schema item,
concatenated in schema order).  They are compared with the code-side lists
above. -/

/-- §4.4 phase 2, per body descriptor: a declaration section exactly when
the body is present and its definition text is nonempty. -/
def specBodyDecl (ctor : TypeData → SectionTemplate) :
    Option TypeData → List SectionTemplate
  | some d => if d.def_ ≠ "" then [ctor d] else []
  | none => []

/-- §4.2/§4.4 phase 6, per body descriptor: the descriptor is flagged for
validation exactly when it is present and carries a validation fragment. -/
def specFlaggedBody : Option TypeData → List TypeData
  | some d => if d.validateDef ≠ "" then [d] else []
  | none => []

/-- §4.4 phase 2a: request body declarations, one per endpoint in schema
order. -/
def specRequestBodyPhase (svc : ServiceData) : List SectionTemplate :=
  (svc.endpoints.map fun e =>
    specBodyDecl SectionTemplate.clientRequestBody e.payloadClientBody).flatten

/-- §4.4 phase 2b: response body declarations, per endpoint, per response,
in schema order. -/
def specResponseBodyPhase (svc : ServiceData) : List SectionTemplate :=
  (svc.endpoints.map fun e =>
    (e.responses.map fun r =>
      specBodyDecl SectionTemplate.clientResponseBody r.clientBody).flatten).flatten

/-- §4.4 phase 2c: error body declarations, per endpoint, per error, in
schema order. -/
def specErrorBodyPhase (svc : ServiceData) : List SectionTemplate :=
  (svc.endpoints.map fun e =>
    (e.errors.map fun herr =>
      specBodyDecl SectionTemplate.clientErrorBody herr.response.clientBody).flatten).flatten

/-- §4.4 phase 2d: shared body-attribute type declarations, in schema
order. -/
def specBodyAttributePhase (svc : ServiceData) : List SectionTemplate :=
  (svc.clientBodyAttributeTypes.map fun d =>
    specBodyDecl SectionTemplate.clientBodyAttributes (some d)).flatten

/-- §4.4 phase 2e: expanded/view type declarations. -/
def specExpandedTypePhase (svc : ServiceData) : List SectionTemplate :=
  svc.expandedTypes.map SectionTemplate.expandedType

/-- §4.4 phase 3a: body constructors — one per endpoint whose request body
carries an InitDescriptor, in schema order. -/
def specBodyConstructorPhase (svc : ServiceData) : List SectionTemplate :=
  (svc.endpoints.map fun e =>
    match e.payloadClientBody with
    | some d => (d.init.map SectionTemplate.clientBodyInit).toList
    | none => []).flatten

/-- §4.4 phase 3b: result constructors — per endpoint, one per response then
one per error, in schema order, for responses/errors carrying a result
constructor. -/
def specResultConstructorPhase (svc : ServiceData) : List SectionTemplate :=
  (svc.endpoints.map fun e =>
    (e.responses.map fun r =>
      (r.resultInit.map SectionTemplate.clientResultInit).toList).flatten
    ++ (e.errors.map fun herr =>
      (herr.response.resultInit.map SectionTemplate.clientErrorResultInit).toList).flatten).flatten

/-- §4.4 phase 4: view-conversion function sections, one per expanded
type. -/
def specViewConversionPhase (svc : ServiceData) : List SectionTemplate :=
  svc.expandedTypes.map SectionTemplate.expandedTypeConvert

/-- §4.4 phase 5: shared transform helper sections. -/
def specTransformHelperPhase (svc : ServiceData) : List SectionTemplate :=
  svc.helpers.map SectionTemplate.transformHelper

/-- §4.4 phase 6 (first half): the flagged body descriptors, in
type-declaration order: request bodies, response bodies, error bodies,
body-attribute types. -/
def specFlaggedBodies (svc : ServiceData) : List TypeData :=
  (svc.endpoints.map fun e => specFlaggedBody e.payloadClientBody).flatten
    ++ (svc.endpoints.map fun e =>
      (e.responses.map fun r => specFlaggedBody r.clientBody).flatten).flatten
    ++ (svc.endpoints.map fun e =>
      (e.errors.map fun herr => specFlaggedBody herr.response.clientBody).flatten).flatten
    ++ (svc.clientBodyAttributeTypes.map fun d => specFlaggedBody (some d)).flatten

/-- §4.4 phase 6: validators — one per flagged body descriptor in
type-declaration order, then one per expanded type requiring validation. -/
def specValidatorPhase (svc : ServiceData) : List SectionTemplate :=
  (specFlaggedBodies svc).map SectionTemplate.clientValidate
    ++ (svc.expandedTypes.filter fun t => t.validate ≠ "").map
      SectionTemplate.clientValidateExpanded

/-! ### The declaration/consumer boundary -/

/-- The header and all type-declaration sections, in emission order. -/
def declPrefix (genpkg : String) (svc : ServiceData) : List SectionTemplate :=
  [SectionTemplate.header svc.name genpkg]
    ++ requestBodySections svc ++ responseBodySections svc
    ++ errorBodySections svc ++ bodyAttributeSections svc
    ++ expandedTypeSections svc

/-- All constructor, conversion, helper and validator sections, in emission
order. -/
def consumerSuffix (svc : ServiceData) : List SectionTemplate :=
  bodyInitSections svc ++ resultInitSections svc
    ++ expandedTypeConvertSections svc ++ transformHelperSections svc
    ++ clientValidateSections svc ++ expandedValidateSections svc

/-! ### Concrete inputs used to exercise the definitions -/

/-- A body descriptor named `DupBody` with a nonempty definition, used to
exhibit duplicate type-declaration sections. -/
def dupBody : TypeData :=
  { name := "DupBody", def_ := "type DupBody struct { A *string }",
    init := none, validateDef := "" }

/-- A service whose two endpoints both declare the request body type
`DupBody`. -/
def dupService : ServiceData :=
  { name := "dup",
    endpoints :=
      [{ name := "a", payloadClientBody := some dupBody, responses := [],
         errors := [] },
       { name := "b", payloadClientBody := some dupBody, responses := [],
         errors := [] }],
    clientBodyAttributeTypes := [], expandedTypes := [], helpers := [] }

/-- A constructor descriptor used by the concrete service below. -/
def wInit : InitData :=
  { name := "NewCreateRequestBody", returnTypeRef := "*CreateRequestBody",
    clientCode := "body := &CreateRequestBody{}" }

/-- A body descriptor whose declaration text is EMPTY but which carries a
constructor and a validation fragment. -/
def wBody : TypeData :=
  { name := "CreateRequestBody", def_ := "", init := some wInit,
    validateDef := "err = goa.MergeErrors(err, err2)" }

/-- The endpoint owning `wBody` as its request client body. -/
def wEndpoint : EndpointData :=
  { name := "create", payloadClientBody := some wBody, responses := [],
    errors := [] }

/-- A body-attribute descriptor whose declaration text is EMPTY but which
carries a validation fragment. -/
def wAttrBody : TypeData :=
  { name := "AttrType", def_ := "", init := none,
    validateDef := "err = goa.ValidatePattern(v)" }

/-- An expanded type with two declared views and a validation fragment. -/
def wExpanded : ExpandedTypeData :=
  { name := "Account", varName := "Account", ref := "*Account",
    resultName := "AccountResult", resultRef := "*AccountResult",
    validate := "if e.ID == nil { err = goa.MissingFieldError }",
    views :=
      [{ view := "default", ref := "*Account", toResult := "ToAccountResult",
         toResultCode := "res := &AccountResult{}" },
       { view := "tiny", ref := "*AccountTiny", toResult := "ToAccountResultTiny",
         toResultCode := "res := &AccountResult{ID: e.ID}" }] }

/-- A one-endpoint service exercising constructors, validators and expanded
types at once. -/
def wService : ServiceData :=
  { name := "account service", endpoints := [wEndpoint],
    clientBodyAttributeTypes := [wAttrBody], expandedTypes := [wExpanded],
    helpers := [] }

/-! ### General list bridging lemmas -/

/-- Mapping each element to a possibly-empty singleton and flattening is the
same as `filterMap`, whenever the two agree pointwise. -/
lemma flatten_map_eq_filterMap {α β : Type} (g : α → List β) (f : α → Option β)
    (hpt : ∀ a, g a = (f a).toList) (l : List α) :
    (l.map g).flatten = l.filterMap f := by
  induction l with
  | nil => rfl
  | cons a t ih => cases h : f a <;> simp [hpt a, h, ih]

/-- Flattening a map is a `flatMap`, up to pointwise agreement. -/
lemma flatten_map_eq_flatMap {α β : Type} (g : α → List β) (f : α → List β)
    (hpt : ∀ a, g a = f a) (l : List α) :
    (l.map g).flatten = l.flatMap f := by
  induction l with
  | nil => rfl
  | cons a t ih => simp [hpt a, ih]

/-- Mapping distributes over `flatMap`. -/
lemma map_flatMap_comm {α β γ : Type} (l : List α) (f : α → List β) (g : β → γ) :
    (l.flatMap f).map g = l.flatMap fun a => (f a).map g := by
  induction l with
  | nil => rfl
  | cons a t ih => simp [ih]

/-! ### The spec phases coincide with the code's lists -/

lemma specRequestBodyPhase_eq (svc : ServiceData) :
    specRequestBodyPhase svc = requestBodySections svc := by
  unfold specRequestBodyPhase requestBodySections requestBodyDatas
  rw [List.map_filterMap]
  apply flatten_map_eq_filterMap
  intro a
  cases h : a.payloadClientBody with
  | none => simp [specBodyDecl, h]
  | some d => by_cases hd : d.def_ = "" <;> simp [specBodyDecl, h, hd]

lemma specResponseBodyPhase_eq (svc : ServiceData) :
    specResponseBodyPhase svc = responseBodySections svc := by
  unfold specResponseBodyPhase responseBodySections responseBodyDatas
  rw [map_flatMap_comm]
  apply flatten_map_eq_flatMap
  intro a
  rw [List.map_filterMap]
  apply flatten_map_eq_filterMap
  intro r
  cases h : r.clientBody with
  | none => simp [specBodyDecl, h]
  | some d => by_cases hd : d.def_ = "" <;> simp [specBodyDecl, h, hd]

lemma specErrorBodyPhase_eq (svc : ServiceData) :
    specErrorBodyPhase svc = errorBodySections svc := by
  unfold specErrorBodyPhase errorBodySections errorBodyDatas
  rw [map_flatMap_comm]
  apply flatten_map_eq_flatMap
  intro a
  rw [List.map_filterMap]
  apply flatten_map_eq_filterMap
  intro herr
  cases h : herr.response.clientBody with
  | none => simp [specBodyDecl, h]
  | some d => by_cases hd : d.def_ = "" <;> simp [specBodyDecl, h, hd]

lemma specBodyAttributePhase_eq (svc : ServiceData) :
    specBodyAttributePhase svc = bodyAttributeSections svc := by
  unfold specBodyAttributePhase bodyAttributeSections bodyAttributeDatas
  rw [List.map_filterMap]
  apply flatten_map_eq_filterMap
  intro d
  by_cases hd : d.def_ = "" <;> simp [specBodyDecl, hd]

lemma specBodyConstructorPhase_eq (svc : ServiceData) :
    specBodyConstructorPhase svc = bodyInitSections svc := by
  unfold specBodyConstructorPhase bodyInitSections initDatas
  rw [List.map_filterMap]
  apply flatten_map_eq_filterMap
  intro a
  cases h : a.payloadClientBody with
  | none => simp [h]
  | some d => simp [h]

lemma specResultConstructorPhase_eq (svc : ServiceData) :
    specResultConstructorPhase svc = resultInitSections svc := by
  unfold specResultConstructorPhase resultInitSections
  apply flatten_map_eq_flatMap
  intro a
  have h1 := flatten_map_eq_filterMap
    (fun r : ResponseData => (r.resultInit.map SectionTemplate.clientResultInit).toList)
    (fun r : ResponseData => r.resultInit.map SectionTemplate.clientResultInit)
    (fun r => rfl) a.responses
  have h2 := flatten_map_eq_filterMap
    (fun herr : ErrorData =>
      (herr.response.resultInit.map SectionTemplate.clientErrorResultInit).toList)
    (fun herr : ErrorData =>
      herr.response.resultInit.map SectionTemplate.clientErrorResultInit)
    (fun herr => rfl) a.errors
  rw [h1, h2]

lemma specFlaggedBodies_eq (svc : ServiceData) :
    specFlaggedBodies svc = validatedTypes svc := by
  unfold specFlaggedBodies validatedTypes requestBodyValidatedDatas
    responseBodyValidatedDatas errorBodyValidatedDatas bodyAttributeValidatedDatas
  have h1 := flatten_map_eq_filterMap
    (fun e : EndpointData => specFlaggedBody e.payloadClientBody)
    (fun a : EndpointData =>
      match a.payloadClientBody with
      | some data => if data.validateDef ≠ "" then some data else none
      | none => none)
    (fun a => by
      cases h : a.payloadClientBody with
      | none => simp [specFlaggedBody, h]
      | some d => by_cases hd : d.validateDef = "" <;> simp [specFlaggedBody, h, hd])
    svc.endpoints
  have h2 := flatten_map_eq_flatMap
    (fun e : EndpointData =>
      (e.responses.map fun r => specFlaggedBody r.clientBody).flatten)
    (fun a : EndpointData =>
      a.responses.filterMap fun resp =>
        match resp.clientBody with
        | some data => if data.validateDef ≠ "" then some data else none
        | none => none)
    (fun a => by
      apply flatten_map_eq_filterMap
      intro r
      cases h : r.clientBody with
      | none => simp [specFlaggedBody, h]
      | some d => by_cases hd : d.validateDef = "" <;> simp [specFlaggedBody, h, hd])
    svc.endpoints
  have h3 := flatten_map_eq_flatMap
    (fun e : EndpointData =>
      (e.errors.map fun herr => specFlaggedBody herr.response.clientBody).flatten)
    (fun a : EndpointData =>
      a.errors.filterMap fun herr =>
        match herr.response.clientBody with
        | some data => if data.validateDef ≠ "" then some data else none
        | none => none)
    (fun a => by
      apply flatten_map_eq_filterMap
      intro herr
      cases h : herr.response.clientBody with
      | none => simp [specFlaggedBody, h]
      | some d => by_cases hd : d.validateDef = "" <;> simp [specFlaggedBody, h, hd])
    svc.endpoints
  have h4 := flatten_map_eq_filterMap
    (fun d : TypeData => specFlaggedBody (some d))
    (fun data : TypeData => if data.validateDef ≠ "" then some data else none)
    (fun d => by by_cases hd : d.validateDef = "" <;> simp [specFlaggedBody, hd])
    svc.clientBodyAttributeTypes
  rw [h1, h2, h3, h4]

lemma specValidatorPhase_eq (svc : ServiceData) :
    specValidatorPhase svc
      = clientValidateSections svc ++ expandedValidateSections svc := by
  unfold specValidatorPhase clientValidateSections expandedValidateSections
    serviceExpandedTypes
  rw [specFlaggedBodies_eq]

/-- The section list planned by `clientType`, written as the concatenation of
the code's phase lists in source order. -/
lemma clientType_sectionTemplates (genpkg : String) (svc : ServiceData)
    (seen : List String) :
    (clientType genpkg svc seen).sectionTemplates
      = [SectionTemplate.header svc.name genpkg]
        ++ requestBodySections svc ++ responseBodySections svc
        ++ errorBodySections svc ++ bodyAttributeSections svc
        ++ expandedTypeSections svc ++ bodyInitSections svc
        ++ resultInitSections svc ++ expandedTypeConvertSections svc
        ++ transformHelperSections svc ++ clientValidateSections svc
        ++ expandedValidateSections svc := by
  simp [clientType, List.append_assoc]

/-- The path planned by `clientType`. -/
lemma clientType_path_eq (genpkg : String) (svc : ServiceData)
    (seen : List String) :
    (clientType genpkg svc seen).path
      = filepathJoin [Gendir, "http", SnakeCase svc.name, "client", "types.go"] :=
  rfl

/-! ### Splitting the artifact at the declaration/consumer boundary -/

lemma clientType_split (genpkg : String) (svc : ServiceData)
    (seen : List String) :
    (clientType genpkg svc seen).sectionTemplates
      = declPrefix genpkg svc ++ consumerSuffix svc := by
  rw [clientType_sectionTemplates]
  simp [declPrefix, consumerSuffix, List.append_assoc]

/-- Every result-constructor section has one of the two result-init
shapes. -/
lemma resultInitSections_shape (svc : ServiceData) :
    ∀ x ∈ resultInitSections svc,
      (∃ i, x = SectionTemplate.clientResultInit i)
        ∨ (∃ i, x = SectionTemplate.clientErrorResultInit i) := by
  intro x hx
  simp only [resultInitSections, List.mem_flatMap, List.mem_append,
    List.mem_filterMap] at hx
  obtain ⟨a, _, hx⟩ := hx
  rcases hx with ⟨r, _, hmap⟩ | ⟨e, _, hmap⟩
  · obtain ⟨i, _, hctor⟩ := Option.map_eq_some'.1 hmap
    exact Or.inl ⟨i, hctor.symm⟩
  · obtain ⟨i, _, hctor⟩ := Option.map_eq_some'.1 hmap
    exact Or.inr ⟨i, hctor.symm⟩

lemma declPrefix_no_consumer (genpkg : String) (svc : ServiceData) :
    ∀ x ∈ declPrefix genpkg svc, isConsumerSection x = false := by
  intro x hx
  simp only [declPrefix, requestBodySections, responseBodySections,
    errorBodySections, bodyAttributeSections, expandedTypeSections,
    List.mem_append, List.mem_map, List.mem_singleton] at hx
  rcases hx with ((((rfl | ⟨d, _, rfl⟩) | ⟨d, _, rfl⟩) | ⟨d, _, rfl⟩)
    | ⟨d, _, rfl⟩) | ⟨t, _, rfl⟩ <;> rfl

lemma consumerSuffix_all_consumer (svc : ServiceData) :
    ∀ x ∈ consumerSuffix svc, isConsumerSection x = true := by
  intro x hx
  simp only [consumerSuffix, bodyInitSections, expandedTypeConvertSections,
    transformHelperSections, clientValidateSections, expandedValidateSections,
    List.mem_append, List.mem_map] at hx
  rcases hx with ((((⟨d, _, rfl⟩ | hres) | ⟨t, _, rfl⟩) | ⟨h, _, rfl⟩)
    | ⟨d, _, rfl⟩) | ⟨t, _, rfl⟩
  · rfl
  · rcases resultInitSections_shape svc x hres with ⟨i, rfl⟩ | ⟨i, rfl⟩ <;> rfl
  all_goals rfl

/-- A consumer section is never a type-declaration section. -/
lemma consumer_not_decl (x : SectionTemplate)
    (h : isConsumerSection x = true) : isTypeDeclSection x = false := by
  cases x <;> simp_all [isConsumerSection, isTypeDeclSection]

lemma consumerSuffix_no_decl (svc : ServiceData) :
    ∀ x ∈ consumerSuffix svc, isTypeDeclSection x = false := fun x hx =>
  consumer_not_decl x (consumerSuffix_all_consumer svc x hx)

/-- In `l₁ ++ l₂`, if no element of `l₁` satisfies `q` and no element of
`l₂` satisfies `p`, then every index holding a `p`-element is below every
index holding a `q`-element. -/
lemma index_lt_of_append {α : Type} (l₁ l₂ : List α) (p q : α → Bool)
    (h₁ : ∀ x ∈ l₁, q x = false) (h₂ : ∀ x ∈ l₂, p x = false)
    (i j : Nat) (si sj : α)
    (hi : (l₁ ++ l₂)[i]? = some si) (hj : (l₁ ++ l₂)[j]? = some sj)
    (hp : p si = true) (hq : q sj = true) : i < j := by
  have hi1 : i < l₁.length := by
    by_contra hge
    push_neg at hge
    rw [List.getElem?_append_right hge] at hi
    have hmem : si ∈ l₂ := List.getElem?_mem hi
    have hfalse := h₂ _ hmem
    rw [hp] at hfalse
    exact False.elim (by simp at hfalse)
  have hj1 : l₁.length ≤ j := by
    by_contra hlt
    push_neg at hlt
    rw [List.getElem?_append_left hlt] at hj
    have hmem : sj ∈ l₁ := List.getElem?_mem hj
    have hfalse := h₁ _ hmem
    rw [hq] at hfalse
    exact False.elim (by simp at hfalse)
  omega

/-! ### Filtering the artifact by section kind -/

lemma filter_map_eq_nil {α β : Type} (p : β → Bool) (f : α → β)
    (h : ∀ a, p (f a) = false) (l : List α) : (l.map f).filter p = [] := by
  induction l with
  | nil => rfl
  | cons a t ih => simp [h, ih]

lemma filter_map_eq_self {α β : Type} (p : β → Bool) (f : α → β)
    (h : ∀ a, p (f a) = true) (l : List α) : (l.map f).filter p = l.map f := by
  induction l with
  | nil => rfl
  | cons a t ih => simp [h, ih]

lemma resultInit_filter_validator (svc : ServiceData) :
    (resultInitSections svc).filter isValidatorSection = [] :=
  List.filter_eq_nil_iff.2 fun x hx => by
    rcases resultInitSections_shape svc x hx with ⟨i, rfl⟩ | ⟨i, rfl⟩ <;>
      simp [isValidatorSection]

lemma resultInit_filter_convert (svc : ServiceData) :
    (resultInitSections svc).filter isConvertSection = [] :=
  List.filter_eq_nil_iff.2 fun x hx => by
    rcases resultInitSections_shape svc x hx with ⟨i, rfl⟩ | ⟨i, rfl⟩ <;>
      simp [isConvertSection]

/-- The validator sections of a planned artifact are exactly the
`client-validate` sections of the flagged body descriptors followed by the
`client-validate-expanded` sections. -/
lemma clientType_filter_validator (genpkg : String) (svc : ServiceData)
    (seen : List String) :
    ((clientType genpkg svc seen).sectionTemplates.filter isValidatorSection)
      = clientValidateSections svc ++ expandedValidateSections svc := by
  rw [clientType_sectionTemplates]
  simp only [List.filter_append, requestBodySections, responseBodySections,
    errorBodySections, bodyAttributeSections, expandedTypeSections,
    bodyInitSections, expandedTypeConvertSections, transformHelperSections,
    clientValidateSections, expandedValidateSections]
  rw [filter_map_eq_nil _ _ (fun d => rfl), filter_map_eq_nil _ _ (fun d => rfl),
    filter_map_eq_nil _ _ (fun d => rfl), filter_map_eq_nil _ _ (fun d => rfl),
    filter_map_eq_nil _ _ (fun t => rfl), filter_map_eq_nil _ _ (fun i => rfl),
    resultInit_filter_validator, filter_map_eq_nil _ _ (fun t => rfl),
    filter_map_eq_nil _ _ (fun h => rfl), filter_map_eq_self _ _ (fun d => rfl),
    filter_map_eq_self _ _ (fun t => rfl)]
  simp [isValidatorSection]

/-- The view-conversion sections of a planned artifact are exactly one
`expanded-type-convert` section per expanded type, in order. -/
lemma clientType_filter_convert (genpkg : String) (svc : ServiceData)
    (seen : List String) :
    ((clientType genpkg svc seen).sectionTemplates.filter isConvertSection)
      = svc.expandedTypes.map SectionTemplate.expandedTypeConvert := by
  rw [clientType_sectionTemplates]
  simp only [List.filter_append, requestBodySections, responseBodySections,
    errorBodySections, bodyAttributeSections, expandedTypeSections,
    bodyInitSections, expandedTypeConvertSections, transformHelperSections,
    clientValidateSections, expandedValidateSections]
  rw [filter_map_eq_nil _ _ (fun d => rfl), filter_map_eq_nil _ _ (fun d => rfl),
    filter_map_eq_nil _ _ (fun d => rfl), filter_map_eq_nil _ _ (fun d => rfl),
    filter_map_eq_nil _ _ (fun t => rfl), filter_map_eq_nil _ _ (fun i => rfl),
    resultInit_filter_convert, filter_map_eq_self _ _ (fun t => rfl),
    filter_map_eq_nil _ _ (fun h => rfl), filter_map_eq_nil _ _ (fun d => rfl),
    filter_map_eq_nil _ _ (fun t => rfl)]
  simp [isConvertSection]

/-! ### Claims -/

/-- C3: For every service, the sections of its artifact appear in exactly
this phase order: header first; then type declarations (request bodies per
endpoint, then response bodies per endpoint per response in schema order,
then error bodies per endpoint per error in schema order, then shared
body-attribute types, then expanded/view types); then body constructors
followed by result constructors (per endpoint, one per response then one per
error, in schema order); then view-conversion functions; then shared
transform helpers; then validators. -/
theorem clientType_phase_order (genpkg : String) (svc : ServiceData)
    (seen : List String) :
    (clientType genpkg svc seen).sectionTemplates
      = [SectionTemplate.header svc.name genpkg]
        ++ specRequestBodyPhase svc ++ specResponseBodyPhase svc
        ++ specErrorBodyPhase svc ++ specBodyAttributePhase svc
        ++ specExpandedTypePhase svc
        ++ specBodyConstructorPhase svc ++ specResultConstructorPhase svc
        ++ specViewConversionPhase svc ++ specTransformHelperPhase svc
        ++ specValidatorPhase svc := by
  rw [clientType_sectionTemplates, specRequestBodyPhase_eq,
    specResponseBodyPhase_eq, specErrorBodyPhase_eq, specBodyAttributePhase_eq,
    specBodyConstructorPhase_eq, specResultConstructorPhase_eq,
    specValidatorPhase_eq]
  simp [specExpandedTypePhase, expandedTypeSections, specViewConversionPhase,
    expandedTypeConvertSections, specTransformHelperPhase,
    transformHelperSections, List.append_assoc]

/-- C4: In every rendered artifact, every type-declaration section precedes
every constructor, transform-helper, and validator section: any index
holding a type-declaration section is strictly below any index holding a
consumer section, so in particular a section referencing a type comes
strictly after that type's declaration section. -/
theorem typeDecl_before_consumers (genpkg : String) (svc : ServiceData)
    (seen : List String) (i j : Nat) (si sj : SectionTemplate)
    (hi : (clientType genpkg svc seen).sectionTemplates[i]? = some si)
    (hj : (clientType genpkg svc seen).sectionTemplates[j]? = some sj)
    (hdecl : isTypeDeclSection si = true)
    (hcons : isConsumerSection sj = true) : i < j := by
  rw [clientType_split] at hi hj
  exact index_lt_of_append (declPrefix genpkg svc) (consumerSuffix svc)
    isTypeDeclSection isConsumerSection
    (declPrefix_no_consumer genpkg svc)
    (fun x hx => consumer_not_decl x (consumerSuffix_all_consumer svc x hx))
    i j si sj hi hj hdecl hcons

/-- C4 witness: in the concrete service `wService`, the `expanded-type`
declaration at index 1 precedes the body constructor at index 2. -/
theorem typeDecl_before_consumers_witness : 1 < 2 :=
  typeDecl_before_consumers "gen" wService [] 1 2
    (SectionTemplate.expandedType wExpanded)
    (SectionTemplate.clientBodyInit wInit) rfl rfl rfl rfl

/-- C1: the claim demands that a type name already claimed in the `seen`
registry causes its declaration section to be omitted and that no two
type-declaration sections of one artifact share a name.  The code never
consults `seen`: with `DupBody` already in the registry, `clientType` still
emits two `client-request-body` declaration sections both named `DupBody`,
and its output does not depend on the registry content at all. -/
theorem clientType_duplicate_type_names :
    ((clientType "gen" dupService ["DupBody"]).sectionTemplates.filterMap
        declTypeName) = ["DupBody", "DupBody"]
    ∧ clientType "gen" dupService ["DupBody"] = clientType "gen" dupService [] :=
  ⟨rfl, rfl⟩

/-- C2 counterexample: the claim states that a payload field with
required=true and hasDefault=false is represented as value; for a field of
aggregate kind the resolver yields optional instead (aggregates always use
pointers, per the rules at lines 24-27 of `client_types.go` and §4.1 of the
spec). -/
theorem pointerPolicy_payload_aggregate_counterexample :
    pointerPolicy true false FieldKind.aggregate FieldContext.payload
      ≠ FieldRep.value := by
  decide

/-- C2 (amended): restricted to fields of primitive kind, the claimed
pointer-policy cases hold — payload (required, no default) is value, payload
(not required, no default) is optional, a result field is optional iff not
required or with default (so required with default is optional), and a
response header (not required, with default) is value; a body field is
optional for every kind. -/
theorem pointerPolicy_spec_cases :
    (pointerPolicy true false FieldKind.primitive FieldContext.payload
        = FieldRep.value)
    ∧ (pointerPolicy false false FieldKind.primitive FieldContext.payload
        = FieldRep.optional)
    ∧ (∀ required hasDefault : Bool,
        pointerPolicy required hasDefault FieldKind.primitive FieldContext.result
            = FieldRep.optional
          ↔ (required = false ∨ hasDefault = true))
    ∧ (∀ (required hasDefault : Bool) (kind : FieldKind),
        pointerPolicy required hasDefault kind FieldContext.body
          = FieldRep.optional)
    ∧ (pointerPolicy false true FieldKind.primitive FieldContext.headerResponse
        = FieldRep.value) := by
  refine ⟨rfl, rfl, ?_, ?_, rfl⟩
  · intro required hasDefault
    cases required <;> cases hasDefault <;> simp [pointerPolicy]
  · intro required hasDefault kind
    cases required <;> cases hasDefault <;> cases kind <;> rfl

/-- C5: the validator sections of an artifact are exactly one
`client-validate` section per body descriptor flagged with a nonempty
validation definition, in type-declaration order (request bodies, response
bodies, error bodies, body-attribute types), followed by one
`client-validate-expanded` section per expanded type requiring validation —
and an expanded type requiring none gets no validator. -/
theorem validator_sections_exact (genpkg : String) (svc : ServiceData)
    (seen : List String) :
    ((clientType genpkg svc seen).sectionTemplates.filter isValidatorSection)
      = ((requestBodyValidatedDatas svc ++ responseBodyValidatedDatas svc
            ++ errorBodyValidatedDatas svc ++ bodyAttributeValidatedDatas svc).map
          SectionTemplate.clientValidate)
        ++ ((svc.expandedTypes.filter fun t => t.validate ≠ "").map
          SectionTemplate.clientValidateExpanded)
    ∧ ∀ t : ExpandedTypeData,
        SectionTemplate.clientValidateExpanded t
            ∈ (clientType genpkg svc seen).sectionTemplates →
          t.validate ≠ "" := by
  constructor
  · rw [clientType_filter_validator]
    rfl
  · intro t hmem
    have hfil : SectionTemplate.clientValidateExpanded t
        ∈ (clientType genpkg svc seen).sectionTemplates.filter
          isValidatorSection :=
      List.mem_filter.2 ⟨hmem, rfl⟩
    rw [clientType_filter_validator] at hfil
    rcases List.mem_append.1 hfil with hleft | hright
    · obtain ⟨d, _, heq⟩ := List.mem_map.1 hleft
      simp [clientValidateSections] at heq
    · obtain ⟨t2, ht2, heq⟩ := List.mem_map.1 hright
      obtain rfl : t2 = t := by
        simpa using heq
      simpa [serviceExpandedTypes] using (List.mem_filter.1 ht2).2

/-- C5 witness: the expanded type `wExpanded` has a
`client-validate-expanded` section in `wService`'s artifact, and indeed it
requires validation. -/
theorem validator_sections_exact_witness : wExpanded.validate ≠ "" :=
  (validator_sections_exact "gen" wService []).2 wExpanded (by decide)

/-- C6: a constructor or validator section is never omitted because the
corresponding type declaration was omitted: for every body descriptor of the
service — an endpoint's request body, response bodies and error bodies, and
the shared body-attribute types — the constructor (where carried) and the
validator appear in the artifact with no condition on the declaration text
(`Def`) of the body. -/
theorem constructors_validators_not_omitted (genpkg : String)
    (svc : ServiceData) (seen : List String) :
    (∀ (a : EndpointData) (data : TypeData) (i : InitData),
      a ∈ svc.endpoints → a.payloadClientBody = some data →
      data.init = some i →
        SectionTemplate.clientBodyInit i
          ∈ (clientType genpkg svc seen).sectionTemplates)
    ∧ (∀ (a : EndpointData) (data : TypeData),
        a ∈ svc.endpoints → a.payloadClientBody = some data →
        data.validateDef ≠ "" →
          SectionTemplate.clientValidate data
            ∈ (clientType genpkg svc seen).sectionTemplates)
    ∧ (∀ (a : EndpointData) (resp : ResponseData) (data : TypeData),
        a ∈ svc.endpoints → resp ∈ a.responses →
        resp.clientBody = some data → data.validateDef ≠ "" →
          SectionTemplate.clientValidate data
            ∈ (clientType genpkg svc seen).sectionTemplates)
    ∧ (∀ (a : EndpointData) (herr : ErrorData) (data : TypeData),
        a ∈ svc.endpoints → herr ∈ a.errors →
        herr.response.clientBody = some data → data.validateDef ≠ "" →
          SectionTemplate.clientValidate data
            ∈ (clientType genpkg svc seen).sectionTemplates)
    ∧ (∀ data : TypeData,
        data ∈ svc.clientBodyAttributeTypes → data.validateDef ≠ "" →
          SectionTemplate.clientValidate data
            ∈ (clientType genpkg svc seen).sectionTemplates) := by
  refine ⟨?_, ?_, ?_, ?_, ?_⟩
  · intro a data i ha hpb hinit
    have hmem : i ∈ initDatas svc :=
      List.mem_filterMap.2 ⟨a, ha, by rw [hpb]; exact hinit⟩
    have hsec : SectionTemplate.clientBodyInit i ∈ bodyInitSections svc :=
      List.mem_map_of_mem _ hmem
    rw [clientType_sectionTemplates]
    simp only [List.mem_append]
    tauto
  · intro a data ha hpb hval
    have hmem : data ∈ requestBodyValidatedDatas svc :=
      List.mem_filterMap.2 ⟨a, ha, by rw [hpb]; simp [hval]⟩
    have hsec : SectionTemplate.clientValidate data
        ∈ clientValidateSections svc :=
      List.mem_map_of_mem _ (by
        simp only [validatedTypes, List.mem_append]
        tauto)
    rw [clientType_sectionTemplates]
    simp only [List.mem_append]
    tauto
  · intro a resp data ha hresp hcb hval
    have hmem : data ∈ responseBodyValidatedDatas svc :=
      List.mem_flatMap.2 ⟨a, ha,
        List.mem_filterMap.2 ⟨resp, hresp, by rw [hcb]; simp [hval]⟩⟩
    have hsec : SectionTemplate.clientValidate data
        ∈ clientValidateSections svc :=
      List.mem_map_of_mem _ (by
        simp only [validatedTypes, List.mem_append]
        tauto)
    rw [clientType_sectionTemplates]
    simp only [List.mem_append]
    tauto
  · intro a herr data ha herrmem hcb hval
    have hmem : data ∈ errorBodyValidatedDatas svc :=
      List.mem_flatMap.2 ⟨a, ha,
        List.mem_filterMap.2 ⟨herr, herrmem, by rw [hcb]; simp [hval]⟩⟩
    have hsec : SectionTemplate.clientValidate data
        ∈ clientValidateSections svc :=
      List.mem_map_of_mem _ (by
        simp only [validatedTypes, List.mem_append]
        tauto)
    rw [clientType_sectionTemplates]
    simp only [List.mem_append]
    tauto
  · intro data hattr hval
    have hmem : data ∈ bodyAttributeValidatedDatas svc :=
      List.mem_filterMap.2 ⟨data, hattr, by simp [hval]⟩
    have hsec : SectionTemplate.clientValidate data
        ∈ clientValidateSections svc :=
      List.mem_map_of_mem _ (by
        simp only [validatedTypes, List.mem_append]
        tauto)
    rw [clientType_sectionTemplates]
    simp only [List.mem_append]
    tauto

/-- C6 witness: the declaration texts of `wBody` (a request body) and
`wAttrBody` (a body-attribute type) are empty, so no declaration section is
emitted for either, yet the request body's constructor and validator and the
body-attribute type's validator are all present in the artifact. -/
theorem constructors_validators_not_omitted_witness :
    (wBody.def_ = "" ∧ wAttrBody.def_ = "")
    ∧ SectionTemplate.clientBodyInit wInit
        ∈ (clientType "gen" wService []).sectionTemplates
    ∧ SectionTemplate.clientValidate wBody
        ∈ (clientType "gen" wService []).sectionTemplates
    ∧ SectionTemplate.clientValidate wAttrBody
        ∈ (clientType "gen" wService []).sectionTemplates :=
  ⟨⟨rfl, rfl⟩,
    (constructors_validators_not_omitted "gen" wService []).1 wEndpoint wBody
      wInit (by decide) rfl rfl,
    (constructors_validators_not_omitted "gen" wService []).2.1 wEndpoint wBody
      (by decide) rfl (by decide),
    (constructors_validators_not_omitted "gen" wService []).2.2.2.2 wAttrBody
      (by decide) (by decide)⟩

/-- C7: the artifact carries exactly one view-conversion section per
expanded type, in order, and the section for an expanded type with N
declared views renders exactly N conversion functions, one per view in
declared order, the k-th named after the k-th view's `ToResult` on that
view's receiver, each returning the type's declared result type
(`ResultRef`). -/
theorem expanded_view_conversions (genpkg : String) (svc : ServiceData)
    (seen : List String) :
    ((clientType genpkg svc seen).sectionTemplates.filter isConvertSection)
      = svc.expandedTypes.map SectionTemplate.expandedTypeConvert
    ∧ ∀ t : ExpandedTypeData,
        (renderExpandedTypeConvert t).length = t.views.length
        ∧ ∀ k : Nat,
            (renderExpandedTypeConvert t)[k]?
              = (t.views[k]?).map fun v =>
                  ConvFunc.mk v.ref v.toResult t.resultRef v.toResultCode := by
  refine ⟨clientType_filter_convert genpkg svc seen, fun t => ⟨?_, fun k => ?_⟩⟩
  · simp [renderExpandedTypeConvert]
  · simp [renderExpandedTypeConvert, List.getElem?_map]

lemma filepathJoin_five (a b c d e : String) :
    filepathJoin [a, b, c, d, e]
      = a ++ "/" ++ b ++ "/" ++ c ++ "/" ++ d ++ "/" ++ e := by
  simp [filepathJoin, String.append_assoc]

/-- C8: the artifact's logical path is the deterministic path
`<generation root>/http/<snake-cased service name>/client/types.go`, and it
is a pure function of the service name alone: any two invocations agreeing
on the service name produce the same path, whatever the other inputs. -/
theorem clientType_path_spec (genpkg : String) (svc : ServiceData)
    (seen : List String) :
    (clientType genpkg svc seen).path
      = Gendir ++ "/http/" ++ SnakeCase svc.name ++ "/client/types.go"
    ∧ ∀ (genpkg2 : String) (svc2 : ServiceData) (seen2 : List String),
        svc.name = svc2.name →
        (clientType genpkg svc seen).path = (clientType genpkg2 svc2 seen2).path := by
  constructor
  · rw [clientType_path_eq, filepathJoin_five]
    have e1 : Gendir ++ "/" ++ "http" ++ "/" = Gendir ++ "/http/" := by decide
    have e2 : ∀ s : String,
        s ++ "/" ++ "client" ++ "/" ++ "types.go" = s ++ "/client/types.go" := by
      intro s
      rw [String.append_assoc, String.append_assoc, String.append_assoc]
      congr 1
    rw [e1, e2]
  · intro genpkg2 svc2 seen2 hname
    rw [clientType_path_eq, clientType_path_eq, hname]

/-- C8 witness: two invocations with the same service name but different
package, endpoints and registry produce the same path. -/
theorem clientType_path_spec_witness :
    (clientType "gen" wService ["x"]).path
      = (clientType "other"
          { name := "account service", endpoints := [],
            clientBodyAttributeTypes := [], expandedTypes := [],
            helpers := [] } []).path :=
  (clientType_path_spec "gen" wService ["x"]).2 "other"
    { name := "account service", endpoints := [],
      clientBodyAttributeTypes := [], expandedTypes := [], helpers := [] }
    [] rfl

/-- C9: generation is deterministic — two runs of `ClientTypeFiles` on the
same input produce identical outputs (same files, same section lists, same
paths, same order). -/
theorem ClientTypeFiles_deterministic (genpkg1 genpkg2 : String)
    (root1 root2 : RootExpr) (hg : genpkg1 = genpkg2) (hr : root1 = root2) :
    ClientTypeFiles genpkg1 root1 = ClientTypeFiles genpkg2 root2 := by
  rw [hg, hr]

/-- C9 witness: two runs on the concrete one-service root agree. -/
theorem ClientTypeFiles_deterministic_witness :
    ClientTypeFiles "gen" { httpServices := [wService] }
      = ClientTypeFiles "gen" { httpServices := [wService] } :=
  ClientTypeFiles_deterministic "gen" "gen" { httpServices := [wService] }
    { httpServices := [wService] } rfl rfl

/-- C10: `ClientTypeFiles` returns exactly one file per service, in the
order of the input's service list, and every service's section list —
including that of a service with no endpoints, expanded types or helpers —
starts with the header section. -/
theorem ClientTypeFiles_one_per_service (genpkg : String) (root : RootExpr) :
    ClientTypeFiles genpkg root
      = root.httpServices.map (fun svc => clientType genpkg svc [])
    ∧ ∀ (svc : ServiceData) (seen : List String),
        ∃ rest : List SectionTemplate,
          (clientType genpkg svc seen).sectionTemplates
            = SectionTemplate.header svc.name genpkg :: rest := by
  refine ⟨rfl, fun svc seen =>
    ⟨requestBodySections svc ++ responseBodySections svc
      ++ errorBodySections svc ++ bodyAttributeSections svc
      ++ expandedTypeSections svc ++ bodyInitSections svc
      ++ resultInitSections svc ++ expandedTypeConvertSections svc
      ++ transformHelperSections svc ++ clientValidateSections svc
      ++ expandedValidateSections svc, ?_⟩⟩
  rw [clientType_sectionTemplates]
  simp [List.append_assoc]

end GoaHTTP
